import Mathlib

/-!
# ESP32 OBD-II emulator: CAN transport and OBD responder

A shallow embedding of `components/can/CAN.c` and `main/can_demo_main.c`.

Conventions of the embedding
* C unsigned integers are `Nat`; a store into a narrower object is written with an
  explicit `%` (for instance `(uint8_t)A` is `A % 256`); copies between objects of the
  same width carry no `%`.
* `uint8_t x[8]` is a `List Nat`; `x[i]` is `x.getD i 0` and `x[i] = v` is `x.set i v`.
* Every frame handed to `twai_transmit` is recorded, in order, in a list of
  `twai_message_t`: this list is what a handler "transmits".
* C `for` loops are recursive functions over an explicit iteration budget that is at
  least the number of iterations the loop bound allows, so they are total.
-/

namespace OBD2

/-! ## Types of `CAN.h` and of the TWAI driver -/

/-- Modelled from the spec: `CAN.h` is not among the sources. The frame format flag of a
Frame ("a standard/extended flag"), with the constructor names `CAN.c` uses. -/
inductive CAN_frame_format_t where
  | CAN_frame_std
  | CAN_frame_ext
  deriving DecidableEq

/-- Modelled from the spec: `CAN.h` is not among the sources. The remote-request flag of a
Frame ("a remote-request flag"), with the constructor names `CAN.c` uses. -/
inductive CAN_RTR_t where
  | CAN_no_RTR
  | CAN_RTR
  deriving DecidableEq

/-- Modelled from the spec: `CAN.h` is not among the sources. A Frame: identifier
(`MsgID`), data length (`FIR.B.DLC`), format flag (`FIR.B.FF`), remote-request flag
(`FIR.B.RTR`) and the eight data bytes (`data.u8`). -/
structure CAN_frame_t where
  MsgID : Nat
  DLC : Nat
  FF : CAN_frame_format_t
  RTR : CAN_RTR_t
  data : List Nat
  deriving DecidableEq

/-- The controller's wire message (`twai_message_t` of the TWAI driver), with the fields
`CAN.c` reads and writes. -/
structure twai_message_t where
  extd : Nat
  rtr : Nat
  ss : Nat
  self : Nat
  dlc_non_comp : Nat
  identifier : Nat
  data_length_code : Nat
  data : List Nat
  deriving DecidableEq

/-! ## `CAN.c` -/

/-- The copy loop of `CAN_write_frame`:
`for (int i = 0; i < p_frame->FIR.B.DLC && i < 8; i++) tx_msg.data[i] = p_frame->data.u8[i];`
-/
def CAN_write_frame_copy (p_frame : CAN_frame_t) : Nat → Nat → List Nat → List Nat
  | 0, _, data => data
  | fuel + 1, i, data =>
    if i < p_frame.DLC ∧ i < 8 then
      CAN_write_frame_copy p_frame fuel (i + 1) (data.set i (p_frame.data.getD i 0))
    else data

/-- The wire message `CAN_write_frame` builds and hands to `twai_transmit`. The
designated initialiser zeroes every member it does not name, `data` included. -/
def CAN_write_frame (p_frame : CAN_frame_t) : twai_message_t :=
  { identifier := p_frame.MsgID
    data_length_code := p_frame.DLC % 256
    extd := if p_frame.FF = CAN_frame_format_t.CAN_frame_ext then 1 else 0
    rtr := if p_frame.RTR = CAN_RTR_t.CAN_RTR then 1 else 0
    ss := 0
    self := 0
    dlc_non_comp := 0
    data := CAN_write_frame_copy p_frame 8 0 (List.replicate 8 0) }

/-- The copy loop of `twai_rx_task`:
`for (int i = 0; i < rx_msg.data_length_code && i < 8; i++) can_frame.data.u8[i] = rx_msg.data[i];`
-/
def twai_rx_task_copy (rx_msg : twai_message_t) : Nat → Nat → List Nat → List Nat
  | 0, _, data => data
  | fuel + 1, i, data =>
    if i < rx_msg.data_length_code ∧ i < 8 then
      twai_rx_task_copy rx_msg fuel (i + 1) (data.set i (rx_msg.data.getD i 0))
    else data

/-- The conversion of a received wire message in `twai_rx_task`. `can_frame` is a local
of the task that lives across iterations, so the bytes the loop does not write keep the
value they had. `CAN.h` is not among the sources: the store into the bit-field
`FIR.B.DLC` is taken to keep four bits, which hold every data length from 0 to 8. -/
def twai_rx_task_convert (can_frame : CAN_frame_t) (rx_msg : twai_message_t) : CAN_frame_t :=
  { MsgID := rx_msg.identifier
    DLC := rx_msg.data_length_code % 16
    FF := if rx_msg.extd ≠ 0 then CAN_frame_format_t.CAN_frame_ext
          else CAN_frame_format_t.CAN_frame_std
    RTR := if rx_msg.rtr ≠ 0 then CAN_RTR_t.CAN_RTR else CAN_RTR_t.CAN_no_RTR
    data := twai_rx_task_copy rx_msg 8 0 can_frame.data }

/-- The driver calls the receive task can issue from its alert handling. -/
inductive twai_call where
  | twai_initiate_recovery
  | twai_start
  deriving DecidableEq

/-- The alert handling at the head of each iteration of `twai_rx_task`. `read` is the
outcome of `twai_read_alerts`: `none` when it does not return `ESP_OK`, otherwise the
alert bitmask. The two masks are the driver's `TWAI_ALERT_BUS_OFF` and
`TWAI_ALERT_BUS_RECOVERED`. -/
def twai_rx_task_alerts (TWAI_ALERT_BUS_OFF TWAI_ALERT_BUS_RECOVERED : Nat)
    (read : Option Nat) : List twai_call :=
  match read with
  | none => []
  | some alerts =>
    (if alerts &&& TWAI_ALERT_BUS_OFF ≠ 0 then [twai_call.twai_initiate_recovery] else [])
      ++ (if alerts &&& TWAI_ALERT_BUS_RECOVERED ≠ 0 then [twai_call.twai_start] else [])

/-- The state one iteration of `twai_rx_task` leaves behind and the driver calls it made. -/
structure twai_rx_task_result where
  calls : List twai_call
  can_frame : CAN_frame_t
  rx_queue : Option (List CAN_frame_t)
  deriving DecidableEq

/-- One iteration of the `while (1)` of `twai_rx_task`. `received` is the outcome of
`twai_receive` (`none` when it does not return `ESP_OK`); `rx_queue` is `none` when
`CAN_cfg.rx_queue` is `NULL`, otherwise the frames waiting in the queue, which
`task_CAN` creates with room for 10 (`xQueueSendToBack` with a zero timeout leaves a
full queue as it is). -/
def twai_rx_task (TWAI_ALERT_BUS_OFF TWAI_ALERT_BUS_RECOVERED : Nat)
    (read : Option Nat) (received : Option twai_message_t)
    (can_frame : CAN_frame_t) (rx_queue : Option (List CAN_frame_t)) :
    twai_rx_task_result :=
  let calls := twai_rx_task_alerts TWAI_ALERT_BUS_OFF TWAI_ALERT_BUS_RECOVERED read
  match received with
  | none => { calls := calls, can_frame := can_frame, rx_queue := rx_queue }
  | some rx_msg =>
    let can_frame := twai_rx_task_convert can_frame rx_msg
    match rx_queue with
    | none => { calls := calls, can_frame := can_frame, rx_queue := none }
    | some q =>
      { calls := calls
        can_frame := can_frame
        rx_queue := some (if q.length < 10 then q ++ [can_frame] else q) }

/-! ## `can_demo_main.c` -/

/-- What a call `obdRevConvert_XX(val, &A, &B, &C, &D)` leaves behind: the `int` it
returns and the four `unsigned int` outputs, which `respondToOBD1` zeroes before the
call. -/
structure obdRevConvert_result where
  ret : Int
  A : Nat
  B : Nat
  C : Nat
  D : Nat
  deriving DecidableEq

/-- Modelled from the spec: `obd.h` and `obd.c` (the PID Codec) are not among the
sources. The five converters `respondToOBD1` calls are taken as parameters; `F` is the
carrier of the C `float` signals. -/
structure obd_h (F : Type) where
  obdRevConvert_0C : F → obdRevConvert_result
  obdRevConvert_0D : Nat → obdRevConvert_result
  obdRevConvert_11 : F → obdRevConvert_result
  obdRevConvert_05 : F → obdRevConvert_result
  obdRevConvert_2F : F → obdRevConvert_result

/-- The globals of `can_demo_main.c` the responder reads and writes: the pending
multi-frame queue `uint8_t can_flow_queue[5][8]` and the vehicle state. `vehicle_vin`
holds the 17 characters as byte values. -/
structure Globals (F : Type) where
  can_flow_queue : List (List Nat)
  vehicle_speed : Nat
  vehicle_rpm : F
  vehicle_throttle : F
  vehicle_coolant : F
  vehicle_fuel_level : F
  vehicle_vin : List Nat
  deriving DecidableEq

/-- The queue after `memset(can_flow_queue, 0, 40)`: five slots of eight zero bytes. -/
def can_flow_queue_zero : List (List Nat) := List.replicate 5 (List.replicate 8 0)

/-- The read `can_flow_queue[i][j]`. -/
def can_flow_queue_get (q : List (List Nat)) (i j : Nat) : Nat := (q.getD i []).getD j 0

/-- The store `can_flow_queue[i][j] = v`. -/
def can_flow_queue_set (q : List (List Nat)) (i j v : Nat) : List (List Nat) :=
  q.set i ((q.getD i []).set j v)

/-- The store `response.data.u8[i] = v`. -/
def CAN_frame_t.u8_set (response : CAN_frame_t) (i v : Nat) : CAN_frame_t :=
  { response with data := response.data.set i v }

/-- The response template of `createOBDResponse(unsigned int mode, unsigned int pid)`. The sum
`0x40 + mode` is taken in `unsigned int` and then stored into a byte. -/
def createOBDResponse (mode pid : Nat) : CAN_frame_t :=
  { MsgID := 0x7E8
    DLC := 8
    FF := CAN_frame_format_t.CAN_frame_std
    RTR := CAN_RTR_t.CAN_no_RTR
    data := [2, (0x40 + mode) % 4294967296 % 256, pid % 256, 0, 0, 0, 0, 0] }

/-- The frames `sendOBDResponse` puts on the bus: the one wire message `CAN_write_frame`
hands to `twai_transmit`. The status it returns is dropped by every caller. -/
def sendOBDResponse (response : CAN_frame_t) : List twai_message_t :=
  [CAN_write_frame response]

/-- The `switch (pid)` of `respondToOBD1`: the response and `data_len` after it. -/
def respondToOBD1_switch {F : Type} (obd : obd_h F) (g : Globals F) (pid : Nat)
    (response : CAN_frame_t) : CAN_frame_t × Int :=
  if pid = 0x00 then
    ((((response.u8_set 3 0x00).u8_set 4 0x18).u8_set 5 0x80).u8_set 6 0x00, 4)
  else if pid = 0x0C then
    let r := obd.obdRevConvert_0C g.vehicle_rpm
    ((response.u8_set 3 (r.A % 256)).u8_set 4 (r.B % 256), r.ret)
  else if pid = 0x0D then
    let r := obd.obdRevConvert_0D g.vehicle_speed
    (response.u8_set 3 (r.A % 256), r.ret)
  else if pid = 0x11 then
    let r := obd.obdRevConvert_11 g.vehicle_throttle
    (response.u8_set 3 (r.A % 256), r.ret)
  else if pid = 0x05 then
    let r := obd.obdRevConvert_05 g.vehicle_coolant
    (response.u8_set 3 (r.A % 256), r.ret)
  else if pid = 0x2F then
    let r := obd.obdRevConvert_2F g.vehicle_fuel_level
    (response.u8_set 3 (r.A % 256), r.ret)
  else (response, 0)

/-- The frames `respondToOBD1(uint8_t pid)` transmits. It writes no global. -/
def respondToOBD1 {F : Type} (obd : obd_h F) (g : Globals F) (pid : Nat) :
    List twai_message_t :=
  let sw := respondToOBD1_switch obd g pid (createOBDResponse 1 pid)
  if sw.2 > 0 then
    sendOBDResponse (sw.1.u8_set 0 ((2 + sw.2) % 256).toNat)
  else []

/-- The globals after `respondToOBD9(uint8_t pid)` and the frames it transmits. -/
def respondToOBD9 {F : Type} (g : Globals F) (pid : Nat) : Globals F × List twai_message_t :=
  let response := createOBDResponse 9 pid
  if pid = 0x00 then
    let response := response.u8_set 0 6
    let response := response.u8_set 3 0x40
    let response := response.u8_set 4 0x00
    let response := response.u8_set 5 0x00
    let response := response.u8_set 6 0x00
    (g, sendOBDResponse response)
  else if pid = 0x02 then
    let response := response.u8_set 0 0x10
    let response := response.u8_set 1 0x14
    let response := response.u8_set 2 0x49
    let response := response.u8_set 3 0x02
    let response := response.u8_set 4 0x01
    let response := response.u8_set 5 (g.vehicle_vin.getD 0 0)
    let response := response.u8_set 6 (g.vehicle_vin.getD 1 0)
    let response := response.u8_set 7 (g.vehicle_vin.getD 2 0)
    let sent := sendOBDResponse response
    let q := g.can_flow_queue
    let q := can_flow_queue_set q 0 0 0x21
    let q := can_flow_queue_set q 0 1 (g.vehicle_vin.getD 3 0)
    let q := can_flow_queue_set q 0 2 (g.vehicle_vin.getD 4 0)
    let q := can_flow_queue_set q 0 3 (g.vehicle_vin.getD 5 0)
    let q := can_flow_queue_set q 0 4 (g.vehicle_vin.getD 6 0)
    let q := can_flow_queue_set q 0 5 (g.vehicle_vin.getD 7 0)
    let q := can_flow_queue_set q 0 6 (g.vehicle_vin.getD 8 0)
    let q := can_flow_queue_set q 0 7 (g.vehicle_vin.getD 9 0)
    let q := can_flow_queue_set q 1 0 0x22
    let q := can_flow_queue_set q 1 1 (g.vehicle_vin.getD 10 0)
    let q := can_flow_queue_set q 1 2 (g.vehicle_vin.getD 11 0)
    let q := can_flow_queue_set q 1 3 (g.vehicle_vin.getD 12 0)
    let q := can_flow_queue_set q 1 4 (g.vehicle_vin.getD 13 0)
    let q := can_flow_queue_set q 1 5 (g.vehicle_vin.getD 14 0)
    let q := can_flow_queue_set q 1 6 (g.vehicle_vin.getD 15 0)
    let q := can_flow_queue_set q 1 7 (g.vehicle_vin.getD 16 0)
    ({ g with can_flow_queue := q }, sent)
  else (g, [])

/-- The inner loop of the Flow-Control branch of `task_CAN`:
`for (int j = 0; j < 8; j++) response.data.u8[j] = can_flow_queue[i][j];` -/
def task_CAN_copy (q : List (List Nat)) (i : Nat) : Nat → Nat → CAN_frame_t → CAN_frame_t
  | 0, _, response => response
  | fuel + 1, j, response =>
    if j < 8 then
      task_CAN_copy q i fuel (j + 1) (response.u8_set j (can_flow_queue_get q i j))
    else response

/-- The outer loop of the Flow-Control branch of `task_CAN`: `for (int i = 0; i < 5; i++)`,
which skips a slot whose first byte is zero and otherwise copies the slot into
`response` and sends it. `response` lives across the iterations. -/
def task_CAN_flow (q : List (List Nat)) :
    Nat → Nat → CAN_frame_t → List twai_message_t → List twai_message_t
  | 0, _, _, sent => sent
  | fuel + 1, i, response, sent =>
    if i < 5 then
      if can_flow_queue_get q i 0 = 0 then task_CAN_flow q fuel (i + 1) response sent
      else
        let response := task_CAN_copy q i 8 0 response
        task_CAN_flow q fuel (i + 1) response (sent ++ sendOBDResponse response)
    else sent

/-- One turn of the `while (1)` of `task_CAN` for a frame taken from the receive queue:
the globals afterwards and the frames transmitted, in order. -/
def task_CAN {F : Type} (obd : obd_h F) (g : Globals F) (RX_frame : CAN_frame_t) :
    Globals F × List twai_message_t :=
  if RX_frame.MsgID = 0x7df then
    if RX_frame.data.getD 1 0 = 1 then
      (g, respondToOBD1 obd g (RX_frame.data.getD 2 0))
    else if RX_frame.data.getD 1 0 = 9 then
      respondToOBD9 g (RX_frame.data.getD 2 0)
    else (g, [])
  else if RX_frame.MsgID = 0x7e0 then
    if RX_frame.data.getD 0 0 = 0x30 then
      let response := createOBDResponse 0 0
      let sent := task_CAN_flow g.can_flow_queue 5 0 response []
      ({ g with can_flow_queue := can_flow_queue_zero }, sent)
    else (g, [])
  else (g, [])

/-- The wire message of a response frame: identifier `0x7E8`, standard format, no
remote request, eight data bytes. -/
def response_msg (payload : List Nat) : twai_message_t :=
  { identifier := 0x7E8
    data_length_code := 8
    extd := 0
    rtr := 0
    ss := 0
    self := 0
    dlc_non_comp := 0
    data := payload }

/-- A 17-character VIN, as `char vehicle_vin[17]` holds it. -/
def is_vin (vin : List Nat) : Prop := vin.length = 17 ∧ ∀ b ∈ vin, b < 256

instance (vin : List Nat) : Decidable (is_vin vin) := by
  unfold is_vin; infer_instance

/-- The initial value of `vehicle_vin`, "ESP32OBD2EMULATOR". -/
def vehicle_vin_init : List Nat :=
  ['E', 'S', 'P', '3', '2', 'O', 'B', 'D', '2', 'E', 'M', 'U', 'L', 'A', 'T', 'O', 'R'].map
    Char.toNat

/-- A broadcast functional request (`0x7DF`) for service `mode` and parameter `pid`:
byte 1 is the mode, byte 2 the PID. -/
def is_request (mode pid : Nat) (f : CAN_frame_t) : Prop :=
  f.MsgID = 0x7DF ∧ f.data.getD 1 0 = mode ∧ f.data.getD 2 0 = pid

instance (mode pid : Nat) (f : CAN_frame_t) : Decidable (is_request mode pid f) := by
  unfold is_request; infer_instance

/-- A Flow-Control "Continue" frame addressed to the ECU (`0x7E0`, byte 0 = `0x30`). -/
def is_flow_control (f : CAN_frame_t) : Prop :=
  f.MsgID = 0x7E0 ∧ f.data.getD 0 0 = 0x30

instance (f : CAN_frame_t) : Decidable (is_flow_control f) := by
  unfold is_flow_control; infer_instance

/-- Modelled from the spec: `obd.c` is not among the sources. The PID Codec of the spec on
whole-number signals: RPM times four split into two bytes big-endian, speed as one byte
cut to `[0, 255]`, throttle and fuel level as the rounded `pct * 255 / 100`, coolant as
`°C + 40` clamped to `[0, 255]`; each converter returns the number of data bytes. -/
def obd_c : obd_h Int :=
  { obdRevConvert_0C := fun rpm => ⟨2, (rpm * 4).toNat / 256, (rpm * 4).toNat % 256, 0, 0⟩
    obdRevConvert_0D := fun speed => ⟨1, min speed 255, 0, 0, 0⟩
    obdRevConvert_11 := fun pct => ⟨1, ((pct * 255 + 50) / 100).toNat, 0, 0, 0⟩
    obdRevConvert_05 := fun c => ⟨1, (min (max (c + 40) 0) 255).toNat, 0, 0, 0⟩
    obdRevConvert_2F := fun pct => ⟨1, ((pct * 255 + 50) / 100).toNat, 0, 0, 0⟩ }

/-- The globals as their initialisers in `can_demo_main.c` leave them (signals as whole
numbers): an all-zero queue, speed 0, RPM 0, throttle 0, coolant 90, fuel level 100 and
the VIN "ESP32OBD2EMULATOR". -/
def Globals_init : Globals Int :=
  { can_flow_queue := can_flow_queue_zero
    vehicle_speed := 0
    vehicle_rpm := 0
    vehicle_throttle := 0
    vehicle_coolant := 90
    vehicle_fuel_level := 100
    vehicle_vin := vehicle_vin_init }

/-- A sample request frame: identifier `0x7DF`, DLC 8, payload `[2, mode, pid, 0, ...]`. -/
def request_frame (mode pid : Nat) : CAN_frame_t :=
  { MsgID := 0x7DF
    DLC := 8
    FF := CAN_frame_format_t.CAN_frame_std
    RTR := CAN_RTR_t.CAN_no_RTR
    data := [2, mode, pid, 0, 0, 0, 0, 0] }

/-- A sample Flow-Control frame: identifier `0x7E0`, DLC 8, payload `[0x30, 0, ...]`. -/
def flow_control_frame : CAN_frame_t :=
  { MsgID := 0x7E0
    DLC := 8
    FF := CAN_frame_format_t.CAN_frame_std
    RTR := CAN_RTR_t.CAN_no_RTR
    data := [0x30, 0, 0, 0, 0, 0, 0, 0] }

/-- A second sample VIN, "WVWZZZ1JZXW000001". -/
def vehicle_vin_other : List Nat :=
  ['W', 'V', 'W', 'Z', 'Z', 'Z', '1', 'J', 'Z', 'X', 'W', '0', '0', '0', '0', '0', '1'].map
    Char.toNat

/-- The value of `data_len` in `respondToOBD1` when its `switch (pid)` is left. -/
def respondToOBD1_data_len {F : Type} (obd : obd_h F) (g : Globals F) (pid : Nat) : Int :=
  (respondToOBD1_switch obd g pid (createOBDResponse 1 pid)).2

/-- The number of data bytes the `case` of `pid` in `respondToOBD1` stores into the
response: four for `0x00`, two for `0x0C`, one for `0x0D`, `0x11`, `0x05` and `0x2F`, and
none when no `case` matches. -/
def respondToOBD1_written (pid : Nat) : Nat :=
  if pid = 0x00 then 4
  else if pid = 0x0C then 2
  else if pid = 0x0D ∨ pid = 0x11 ∨ pid = 0x05 ∨ pid = 0x2F then 1
  else 0

/-- The data bytes the `case` of `pid` in `respondToOBD1` stores, in the order of their
indices from byte 3 on. -/
def respondToOBD1_data {F : Type} (obd : obd_h F) (g : Globals F) (pid : Nat) : List Nat :=
  if pid = 0x00 then [0x00, 0x18, 0x80, 0x00]
  else if pid = 0x0C then
    [(obd.obdRevConvert_0C g.vehicle_rpm).A % 256, (obd.obdRevConvert_0C g.vehicle_rpm).B % 256]
  else if pid = 0x0D then [(obd.obdRevConvert_0D g.vehicle_speed).A % 256]
  else if pid = 0x11 then [(obd.obdRevConvert_11 g.vehicle_throttle).A % 256]
  else if pid = 0x05 then [(obd.obdRevConvert_05 g.vehicle_coolant).A % 256]
  else if pid = 0x2F then [(obd.obdRevConvert_2F g.vehicle_fuel_level).A % 256]
  else []

/-- A frame buffer of the receive task that still holds an earlier eight-byte frame
`[2, 9, b2, 0, 0, 0, 0, 0]`. -/
def stale_frame (b2 : Nat) : CAN_frame_t :=
  { MsgID := 0x7DF
    DLC := 8
    FF := CAN_frame_format_t.CAN_frame_std
    RTR := CAN_RTR_t.CAN_no_RTR
    data := [2, 9, b2, 0, 0, 0, 0, 0] }

/-- A wire message with identifier `0x7DF` that declares two data bytes, `[2, 9]`. -/
def short_request_msg : twai_message_t :=
  { identifier := 0x7DF
    data_length_code := 2
    extd := 0
    rtr := 0
    ss := 0
    self := 0
    dlc_non_comp := 0
    data := [2, 9, 0, 0, 0, 0, 0, 0] }

/-- A sample frame for the wire round trip: extended identifier, remote request, DLC 3. -/
def roundtrip_frame : CAN_frame_t :=
  { MsgID := 0x18DAF110
    DLC := 3
    FF := CAN_frame_format_t.CAN_frame_ext
    RTR := CAN_RTR_t.CAN_RTR
    data := [0x11, 0x22, 0x33, 0x44, 0x55, 0x66, 0x77, 0x88] }

/-! ## Start-up, diagnostics and the codec of the spec -/

/-- The value `ESP_OK` of `esp_err_t`. -/
def ESP_OK : Int := 0

/-- The calls `CAN_init` can make on the driver and on the scheduler. -/
inductive CAN_init_call where
  | twai_driver_install
  | twai_start
  | twai_driver_uninstall
  | xTaskCreate
  deriving DecidableEq

/-- The value `CAN_init` returns and the calls it makes, in order. `install` and `start`
are the `esp_err_t` results of `twai_driver_install` and `twai_start`; `rx_queue` is
`none` when `CAN_cfg.rx_queue` is `NULL`. The timing and filter configuration it builds
first make no call. -/
def CAN_init (install start : Int) (rx_queue : Option (List CAN_frame_t)) :
    Int × List CAN_init_call :=
  if install ≠ ESP_OK then (-1, [CAN_init_call.twai_driver_install])
  else if start ≠ ESP_OK then
    (-1, [CAN_init_call.twai_driver_install, CAN_init_call.twai_start,
      CAN_init_call.twai_driver_uninstall])
  else
    (0, [CAN_init_call.twai_driver_install, CAN_init_call.twai_start]
      ++ (if rx_queue ≠ none then [CAN_init_call.xTaskCreate] else []))

/-- The controller states of the TWAI driver (`twai_state_t`). -/
inductive twai_state_t where
  | TWAI_STATE_STOPPED
  | TWAI_STATE_RUNNING
  | TWAI_STATE_BUS_OFF
  | TWAI_STATE_RECOVERING
  deriving DecidableEq

/-- The status snapshot of the TWAI driver (`twai_status_info_t`). -/
structure twai_status_info_t where
  state : twai_state_t
  msgs_to_tx : Nat
  msgs_to_rx : Nat
  tx_error_counter : Nat
  rx_error_counter : Nat
  tx_failed_count : Nat
  rx_missed_count : Nat
  rx_overrun_count : Nat
  arb_lost_count : Nat
  bus_error_count : Nat
  deriving DecidableEq

/-- The counters `CAN_print_diagnostics` prints, in the order it prints them. -/
inductive diagnostics_counter where
  | tx_error_counter
  | rx_error_counter
  | msgs_to_tx
  | msgs_to_rx
  | tx_failed_count
  | rx_missed_count
  | rx_overrun_count
  | arb_lost_count
  | bus_error_count
  deriving DecidableEq

/-- What `CAN_print_diagnostics` prints, one constructor for each `printf` group:
the banner, the state label, a counter with its value, the diagnosis heading, the three
messages for each error counter ("HIGH ... ERRORS!", "Some ... errors detected",
"... Error Counter: OK"), the "BUS OFF STATE" callout, the closing rule, and the error
line when the status cannot be read. -/
inductive diagnostics_line where
  | banner
  | state_RUNNING
  | state_BUS_OFF
  | state_RECOVERING
  | state_STOPPED
  | counter (c : diagnostics_counter) (value : Nat)
  | diagnosis
  | tx_high
  | tx_some
  | tx_ok
  | rx_high
  | rx_some
  | rx_ok
  | bus_off_callout
  | closing
  | status_error
  deriving DecidableEq

/-- The lines `CAN_print_diagnostics` prints. `status` is the outcome of
`twai_get_status_info`: `none` when it does not return `ESP_OK`. The `default` label of
the state `switch` cannot be reached by a value of `twai_state_t`. -/
def CAN_print_diagnostics (status : Option twai_status_info_t) : List diagnostics_line :=
  match status with
  | none => [diagnostics_line.status_error]
  | some status_info =>
    [diagnostics_line.banner]
    ++ [match status_info.state with
        | twai_state_t.TWAI_STATE_RUNNING => diagnostics_line.state_RUNNING
        | twai_state_t.TWAI_STATE_BUS_OFF => diagnostics_line.state_BUS_OFF
        | twai_state_t.TWAI_STATE_RECOVERING => diagnostics_line.state_RECOVERING
        | twai_state_t.TWAI_STATE_STOPPED => diagnostics_line.state_STOPPED]
    ++ [diagnostics_line.counter diagnostics_counter.tx_error_counter status_info.tx_error_counter,
        diagnostics_line.counter diagnostics_counter.rx_error_counter status_info.rx_error_counter,
        diagnostics_line.counter diagnostics_counter.msgs_to_tx status_info.msgs_to_tx,
        diagnostics_line.counter diagnostics_counter.msgs_to_rx status_info.msgs_to_rx,
        diagnostics_line.counter diagnostics_counter.tx_failed_count status_info.tx_failed_count,
        diagnostics_line.counter diagnostics_counter.rx_missed_count status_info.rx_missed_count,
        diagnostics_line.counter diagnostics_counter.rx_overrun_count status_info.rx_overrun_count,
        diagnostics_line.counter diagnostics_counter.arb_lost_count status_info.arb_lost_count,
        diagnostics_line.counter diagnostics_counter.bus_error_count status_info.bus_error_count]
    ++ [diagnostics_line.diagnosis]
    ++ [if status_info.tx_error_counter > 96 then diagnostics_line.tx_high
        else if status_info.tx_error_counter > 0 then diagnostics_line.tx_some
        else diagnostics_line.tx_ok]
    ++ [if status_info.rx_error_counter > 96 then diagnostics_line.rx_high
        else if status_info.rx_error_counter > 0 then diagnostics_line.rx_some
        else diagnostics_line.rx_ok]
    ++ (if status_info.state = twai_state_t.TWAI_STATE_BUS_OFF then
          [diagnostics_line.bus_off_callout] else [])
    ++ [diagnostics_line.closing]

/-- A sample status snapshot: the given state and error counters, every other counter 0. -/
def status_sample (state : twai_state_t) (tx rx : Nat) : twai_status_info_t :=
  { state := state
    msgs_to_tx := 0
    msgs_to_rx := 0
    tx_error_counter := tx
    rx_error_counter := rx
    tx_failed_count := 0
    rx_missed_count := 0
    rx_overrun_count := 0
    arb_lost_count := 0
    bus_error_count := 0 }

/-- The start of `task_CAN`, after `CAN_init` and before the `while (1)`: it sets
`vehicle_speed` to 85 and writes the test frame built from `createOBDResponse(1, 0x0D)`
with byte 0 = 3 and byte 3 = 85. The frame is written whatever `CAN_init` returned. -/
def task_CAN_startup {F : Type} (g : Globals F) : Globals F × List twai_message_t :=
  let g := { g with vehicle_speed := 85 }
  let test_frame := createOBDResponse 1 0x0D
  let test_frame := test_frame.u8_set 0 3
  let test_frame := test_frame.u8_set 3 85
  (g, [CAN_write_frame test_frame])

/-- Modelled from the spec: `obd.c` is not among the sources. The speed converter of the
PID Codec, "speed as a single byte = km/h truncated to [0,255]": one data byte, returned
in `A`, and the count 1. -/
def obdRevConvert_0D (speed : Nat) : obdRevConvert_result :=
  { ret := 1, A := min speed 255, B := 0, C := 0, D := 0 }

/-- Modelled from the spec: `obd.c` is not among the sources. The speed formula run in
reverse ("decoding it back"): the speed in km/h is the data byte. -/
def obdConvert_0D (A : Nat) : Nat := A

/-- The shape every reachable pending queue has: five slots, slots 0 and 1 of eight bytes,
slots 2 to 4 all zero (only the VIN case writes the queue, and only slots 0 and 1). -/
def can_flow_queue_inv (q : List (List Nat)) : Prop :=
  q.length = 5 ∧ (q.getD 0 []).length = 8 ∧ (q.getD 1 []).length = 8
    ∧ q.drop 2 = List.replicate 3 (List.replicate 8 0)

instance (q : List (List Nat)) : Decidable (can_flow_queue_inv q) := by
  unfold can_flow_queue_inv; infer_instance

/-- The message a receiver reassembles: payload bytes 2..7 of each First Frame followed
by payload bytes 1..7 of each Consecutive Frame, in transmission order. -/
def reassemble (first consecutive : List twai_message_t) : List Nat :=
  (first.map (fun m => m.data.drop 2)).foldr (fun a b => a ++ b) []
    ++ (consecutive.map (fun m => m.data.drop 1)).foldr (fun a b => a ++ b) []

/-- The four data bytes of a supported-PID reply (payload bytes 3..6) read as a
big-endian 32-bit mask. -/
def supported_mask (m : twai_message_t) : Nat :=
  ((m.data.getD 3 0 * 256 + m.data.getD 4 0) * 256 + m.data.getD 5 0) * 256 + m.data.getD 6 0

/-- The bit of a supported-PID mask that stands for PID `p` in `0x01..0x20`: the most
significant bit for `0x01`, the least significant for `0x20`. -/
def supported_bit (mask p : Nat) : Bool := mask.testBit (0x20 - p)

/-- Whether the `switch (pid)` of `respondToOBD1` has a `case` for `pid`. -/
def respondToOBD1_has_case (pid : Nat) : Bool :=
  pid = 0x00 ∨ pid = 0x0C ∨ pid = 0x0D ∨ pid = 0x11 ∨ pid = 0x05 ∨ pid = 0x2F

/-! ## Helper lemmas -/

theorem vin_cases (vin : List Nat) (h : vin.length = 17) :
    ∃ a0 a1 a2 a3 a4 a5 a6 a7 a8 a9 a10 a11 a12 a13 a14 a15 a16,
      vin = [a0, a1, a2, a3, a4, a5, a6, a7, a8, a9, a10, a11, a12, a13, a14, a15, a16] := by
  match vin, h with
  | [a0, a1, a2, a3, a4, a5, a6, a7, a8, a9, a10, a11, a12, a13, a14, a15, a16], _ =>
    exact ⟨a0, a1, a2, a3, a4, a5, a6, a7, a8, a9, a10, a11, a12, a13, a14, a15, a16, rfl⟩

theorem task_CAN_mode1 {F : Type} (obd : obd_h F) (g : Globals F) (pid : Nat)
    (req : CAN_frame_t) (hreq : is_request 1 pid req) :
    task_CAN obd g req = (g, respondToOBD1 obd g pid) := by
  obtain ⟨h1, h2, h3⟩ := hreq
  unfold task_CAN
  rw [if_pos h1, if_pos h2, h3]

theorem task_CAN_mode9 {F : Type} (obd : obd_h F) (g : Globals F) (pid : Nat)
    (req : CAN_frame_t) (hreq : is_request 9 pid req) :
    task_CAN obd g req = respondToOBD9 g pid := by
  obtain ⟨h1, h2, h3⟩ := hreq
  unfold task_CAN
  rw [if_pos h1, if_neg (by rw [h2]; decide), if_pos h2, h3]

theorem task_CAN_flow_control {F : Type} (obd : obd_h F) (g : Globals F) (fc : CAN_frame_t)
    (hfc : is_flow_control fc) :
    task_CAN obd g fc =
      ({ g with can_flow_queue := can_flow_queue_zero },
        task_CAN_flow g.can_flow_queue 5 0 (createOBDResponse 0 0) []) := by
  obtain ⟨h1, h2⟩ := hfc
  unfold task_CAN
  rw [if_neg (by rw [h1]; decide), if_pos h1, if_pos h2]

/-- The VIN case of `respondToOBD9` writes all sixteen bytes of slots 0 and 1 and nothing
else, whatever the slots held. -/
theorem respondToOBD9_vin_queue {F : Type} (g : Globals F) (r0 r1 r2 r3 r4 : List Nat)
    (hq : g.can_flow_queue = [r0, r1, r2, r3, r4]) (h0 : r0.length = 8) (h1 : r1.length = 8)
    (hvin : g.vehicle_vin.length = 17) :
    (respondToOBD9 g 2).1.can_flow_queue =
      [0x21 :: (g.vehicle_vin.drop 3).take 7, 0x22 :: (g.vehicle_vin.drop 10).take 7,
        r2, r3, r4] := by
  obtain ⟨a0, a1, a2, a3, a4, a5, a6, a7, a8, a9, a10, a11, a12, a13, a14, a15, a16, hv⟩ :=
    vin_cases g.vehicle_vin hvin
  match r0, h0, r1, h1 with
  | [b0, b1, b2, b3, b4, b5, b6, b7], _, [c0, c1, c2, c3, c4, c5, c6, c7], _ =>
    simp [respondToOBD9, hq, hv, can_flow_queue_set]

theorem respondToOBD9_vin_sent {F : Type} (g : Globals F) :
    (respondToOBD9 g 2).2 =
      [response_msg [0x10, 0x14, 0x49, 0x02, 0x01, g.vehicle_vin.getD 0 0,
        g.vehicle_vin.getD 1 0, g.vehicle_vin.getD 2 0]] := by
  rfl

/-- Flow-Control on a queue whose slots 0 and 1 are populated and whose other slots are
zero sends the two slots, in order. -/
theorem task_CAN_flow_two (p0 p1 : List Nat) (h0 : p0.length = 7) (h1 : p1.length = 7) :
    task_CAN_flow [0x21 :: p0, 0x22 :: p1, List.replicate 8 0, List.replicate 8 0,
        List.replicate 8 0] 5 0 (createOBDResponse 0 0) [] =
      [response_msg (0x21 :: p0), response_msg (0x22 :: p1)] := by
  match p0, h0, p1, h1 with
  | [b1, b2, b3, b4, b5, b6, b7], _, [c1, c2, c3, c4, c5, c6, c7], _ =>
    simp [task_CAN_flow, task_CAN_copy, can_flow_queue_get, sendOBDResponse, CAN_write_frame,
      CAN_write_frame_copy, createOBDResponse, CAN_frame_t.u8_set, response_msg]

theorem task_CAN_flow_zero (response : CAN_frame_t) :
    task_CAN_flow can_flow_queue_zero 5 0 response [] = [] := by
  rfl

theorem vin_slice_length (vin : List Nat) (hvin : vin.length = 17) :
    ((vin.drop 3).take 7).length = 7 ∧ ((vin.drop 10).take 7).length = 7 := by
  simp [hvin]

theorem createOBDResponse_data (mode pid : Nat) :
    (createOBDResponse mode pid).data = [2, (0x40 + mode) % 256, pid % 256, 0, 0, 0, 0, 0] := by
  have h : (0x40 + mode) % 4294967296 % 256 = (0x40 + mode) % 256 :=
    Nat.mod_mod_of_dvd _ (by decide)
  simp [createOBDResponse, h]

/-- The closed form of `respondToOBD1`: nothing unless `data_len > 0`, otherwise one
response frame laid out as length byte, `0x41`, PID, data bytes, zero padding. -/
theorem respondToOBD1_eq {F : Type} (obd : obd_h F) (g : Globals F) (pid : Nat)
    (hpid : pid < 256) :
    respondToOBD1 obd g pid =
      if respondToOBD1_data_len obd g pid > 0 then
        [response_msg ([((2 + respondToOBD1_data_len obd g pid) % 256).toNat, 0x41, pid]
          ++ respondToOBD1_data obd g pid
          ++ List.replicate (5 - respondToOBD1_written pid) 0)]
      else [] := by
  have hp : pid % 256 = pid := Nat.mod_eq_of_lt hpid
  unfold respondToOBD1 respondToOBD1_data_len
  by_cases h0 : pid = 0x00
  · subst h0
    simp [respondToOBD1_switch, respondToOBD1_written, respondToOBD1_data, sendOBDResponse,
      CAN_write_frame, CAN_write_frame_copy, createOBDResponse, CAN_frame_t.u8_set, response_msg]
  by_cases h1 : pid = 0x0C
  · subst h1
    simp [respondToOBD1_switch, respondToOBD1_written, respondToOBD1_data, sendOBDResponse,
      CAN_write_frame, CAN_write_frame_copy, createOBDResponse, CAN_frame_t.u8_set, response_msg]
  by_cases h2 : pid = 0x0D
  · subst h2
    simp [respondToOBD1_switch, respondToOBD1_written, respondToOBD1_data, sendOBDResponse,
      CAN_write_frame, CAN_write_frame_copy, createOBDResponse, CAN_frame_t.u8_set, response_msg]
  by_cases h3 : pid = 0x11
  · subst h3
    simp [respondToOBD1_switch, respondToOBD1_written, respondToOBD1_data, sendOBDResponse,
      CAN_write_frame, CAN_write_frame_copy, createOBDResponse, CAN_frame_t.u8_set, response_msg]
  by_cases h4 : pid = 0x05
  · subst h4
    simp [respondToOBD1_switch, respondToOBD1_written, respondToOBD1_data, sendOBDResponse,
      CAN_write_frame, CAN_write_frame_copy, createOBDResponse, CAN_frame_t.u8_set, response_msg]
  by_cases h5 : pid = 0x2F
  · subst h5
    simp [respondToOBD1_switch, respondToOBD1_written, respondToOBD1_data, sendOBDResponse,
      CAN_write_frame, CAN_write_frame_copy, createOBDResponse, CAN_frame_t.u8_set, response_msg]
  simp [respondToOBD1_switch, h0, h1, h2, h3, h4, h5]

theorem respondToOBD1_written_le (pid : Nat) : respondToOBD1_written pid ≤ 4 := by
  unfold respondToOBD1_written
  split_ifs <;> decide

theorem respondToOBD1_data_length {F : Type} (obd : obd_h F) (g : Globals F) (pid : Nat) :
    (respondToOBD1_data obd g pid).length = respondToOBD1_written pid := by
  unfold respondToOBD1_data respondToOBD1_written
  split_ifs <;> simp_all

theorem respondToOBD1_unsupported {F : Type} (obd : obd_h F) (g : Globals F) (pid : Nat)
    (h : pid ∉ [0x00, 0x05, 0x0C, 0x0D, 0x11, 0x2F]) : respondToOBD1 obd g pid = [] := by
  simp only [List.mem_cons, List.mem_singleton, List.not_mem_nil, or_false, not_or] at h
  obtain ⟨h0, h5, hC, hD, h11, h2F⟩ := h
  simp [respondToOBD1, respondToOBD1_switch, h0, h5, hC, hD, h11, h2F]

theorem respondToOBD9_unsupported {F : Type} (g : Globals F) (pid : Nat)
    (h : pid ∉ [0x00, 0x02]) : respondToOBD9 g pid = (g, []) := by
  simp only [List.mem_cons, List.mem_singleton, List.not_mem_nil, or_false, not_or] at h
  obtain ⟨h0, h2⟩ := h
  simp [respondToOBD9, h0, h2]

theorem twai_rx_task_calls (TWAI_ALERT_BUS_OFF TWAI_ALERT_BUS_RECOVERED : Nat)
    (read : Option Nat) (received : Option twai_message_t) (can_frame : CAN_frame_t)
    (rx_queue : Option (List CAN_frame_t)) :
    (twai_rx_task TWAI_ALERT_BUS_OFF TWAI_ALERT_BUS_RECOVERED read received can_frame
        rx_queue).calls =
      twai_rx_task_alerts TWAI_ALERT_BUS_OFF TWAI_ALERT_BUS_RECOVERED read := by
  unfold twai_rx_task
  cases received with
  | none => rfl
  | some rx_msg => cases rx_queue <;> rfl

/-! ## Multi-frame VIN transmission -/

/-- C1: from an all-zero pending queue and for every 17-byte VIN, after a Mode-9 PID 0x02
request one Flow-Control frame transmits exactly two frames at `0x7E8`, first
`[0x21, VIN[3..9]]` then `[0x22, VIN[10..16]]`, and leaves the queue all zero; a second
Flow-Control frame right after it transmits nothing. -/
theorem flow_control_releases_vin_once {F : Type} (obd : obd_h F) (g : Globals F)
    (req fc1 fc2 : CAN_frame_t)
    (hq : g.can_flow_queue = can_flow_queue_zero) (hvin : is_vin g.vehicle_vin)
    (hreq : is_request 9 0x02 req) (hfc1 : is_flow_control fc1) (hfc2 : is_flow_control fc2) :
    (task_CAN obd (task_CAN obd g req).1 fc1).2 =
        [response_msg (0x21 :: (g.vehicle_vin.drop 3).take 7),
         response_msg (0x22 :: (g.vehicle_vin.drop 10).take 7)]
      ∧ (task_CAN obd (task_CAN obd g req).1 fc1).1.can_flow_queue = can_flow_queue_zero
      ∧ (task_CAN obd (task_CAN obd (task_CAN obd g req).1 fc1).1 fc2).2 = [] := by
  have hl := vin_slice_length g.vehicle_vin hvin.1
  rw [task_CAN_mode9 obd g 2 req hreq, task_CAN_flow_control obd _ fc1 hfc1,
    task_CAN_flow_control obd _ fc2 hfc2,
    respondToOBD9_vin_queue g _ _ _ _ _ hq (by simp) (by simp) hvin.1]
  refine ⟨task_CAN_flow_two _ _ hl.1 hl.2, rfl, ?_⟩
  exact task_CAN_flow_zero (createOBDResponse 0 0)

/-- Witness of C1 at the initial globals (VIN "ESP32OBD2EMULATOR"). -/
theorem flow_control_releases_vin_once_witness :
    (task_CAN obd_c (task_CAN obd_c Globals_init (request_frame 9 2)).1 flow_control_frame).2 =
        [response_msg (0x21 :: (Globals_init.vehicle_vin.drop 3).take 7),
         response_msg (0x22 :: (Globals_init.vehicle_vin.drop 10).take 7)]
      ∧ (task_CAN obd_c (task_CAN obd_c Globals_init (request_frame 9 2)).1
          flow_control_frame).1.can_flow_queue = can_flow_queue_zero
      ∧ (task_CAN obd_c (task_CAN obd_c (task_CAN obd_c Globals_init (request_frame 9 2)).1
          flow_control_frame).1 flow_control_frame).2 = [] :=
  flow_control_releases_vin_once obd_c Globals_init (request_frame 9 2) flow_control_frame
    flow_control_frame rfl (by decide) (by decide) (by decide) (by decide)

/-- C2, as stated, fails: for the VIN "ESP32OBD2EMULATOR" the one frame a Mode-9 PID 0x02
request transmits has payload byte 4 equal to `0x01`, not `E` (`0x45`); the first VIN
character is payload byte 5. -/
theorem first_frame_byte4_not_vin0 :
    is_vin Globals_init.vehicle_vin
      ∧ is_request 9 0x02 (request_frame 9 2)
      ∧ Globals_init.vehicle_vin.getD 0 0 = 0x45
      ∧ (task_CAN obd_c Globals_init (request_frame 9 2)).2.map (fun m => m.data.getD 4 0) = [0x01]
      ∧ ¬ ((task_CAN obd_c Globals_init (request_frame 9 2)).2.map (fun m => m.data.take 5) =
            [[0x10, 0x14, 0x49, 0x02, Globals_init.vehicle_vin.getD 0 0]]) := by
  decide

/-- C2, amended: for every 17-byte VIN a Mode-9 PID 0x02 request transmits exactly one
frame at once, at `0x7E8`, with payload
`[0x10, 0x14, 0x49, 0x02, 0x01, VIN[0], VIN[1], VIN[2]]`: byte 4 is the constant `0x01` and
the first VIN character is byte 5. -/
theorem vin_request_first_frame {F : Type} (obd : obd_h F) (g : Globals F) (req : CAN_frame_t)
    (hvin : is_vin g.vehicle_vin) (hreq : is_request 9 0x02 req) :
    (task_CAN obd g req).2 =
      [response_msg ([0x10, 0x14, 0x49, 0x02, 0x01] ++ g.vehicle_vin.take 3)] := by
  obtain ⟨a0, a1, a2, a3, a4, a5, a6, a7, a8, a9, a10, a11, a12, a13, a14, a15, a16, hv⟩ :=
    vin_cases g.vehicle_vin hvin.1
  rw [task_CAN_mode9 obd g 2 req hreq, respondToOBD9_vin_sent, hv]
  rfl

/-- Witness of the amended C2 at the initial globals: byte 5 is `E`. -/
theorem vin_request_first_frame_witness :
    (task_CAN obd_c Globals_init (request_frame 9 2)).2 =
        [response_msg ([0x10, 0x14, 0x49, 0x02, 0x01] ++ Globals_init.vehicle_vin.take 3)]
      ∧ ([0x10, 0x14, 0x49, 0x02, 0x01] ++ Globals_init.vehicle_vin.take 3).getD 5 0 =
          Char.toNat 'E' :=
  ⟨vin_request_first_frame obd_c Globals_init (request_frame 9 2) (by decide) (by decide),
    by decide⟩

/-- C3: from an all-zero pending queue and for every 17-byte VIN, a Mode-9 PID 0x02
request leaves the queue with slot 0 = `[0x21, VIN[3..9]]`, slot 1 = `[0x22, VIN[10..16]]`
(PCI byte `0x20 | seq`, `seq` = 1, 2, seven data bytes each) and slots 2..4 all zero, and
the request itself transmits no Consecutive Frame: the one frame it sends has PCI byte
`0x10`. -/
theorem vin_request_fills_queue {F : Type} (obd : obd_h F) (g : Globals F) (req : CAN_frame_t)
    (hq : g.can_flow_queue = can_flow_queue_zero) (hvin : is_vin g.vehicle_vin)
    (hreq : is_request 9 0x02 req) :
    (task_CAN obd g req).1.can_flow_queue =
        [(0x20 ||| 1) :: (g.vehicle_vin.drop 3).take 7,
         (0x20 ||| 2) :: (g.vehicle_vin.drop 10).take 7,
         List.replicate 8 0, List.replicate 8 0, List.replicate 8 0]
      ∧ ((g.vehicle_vin.drop 3).take 7).length = 7
      ∧ ((g.vehicle_vin.drop 10).take 7).length = 7
      ∧ (task_CAN obd g req).2.length = 1
      ∧ ∀ m ∈ (task_CAN obd g req).2, m.data.getD 0 0 = 0x10 ∧ m.data.getD 0 0 / 16 ≠ 2 := by
  have hl := vin_slice_length g.vehicle_vin hvin.1
  rw [task_CAN_mode9 obd g 2 req hreq,
    respondToOBD9_vin_queue g _ _ _ _ _ hq (by simp) (by simp) hvin.1, respondToOBD9_vin_sent]
  refine ⟨rfl, hl.1, hl.2, rfl, ?_⟩
  intro m hm
  rw [List.mem_singleton] at hm
  subst hm
  refine ⟨rfl, ?_⟩
  show 0x10 / 16 ≠ 2
  decide

/-- Witness of C3 at the initial globals. -/
theorem vin_request_fills_queue_witness :
    (task_CAN obd_c Globals_init (request_frame 9 2)).1.can_flow_queue =
        [(0x20 ||| 1) :: (Globals_init.vehicle_vin.drop 3).take 7,
         (0x20 ||| 2) :: (Globals_init.vehicle_vin.drop 10).take 7,
         List.replicate 8 0, List.replicate 8 0, List.replicate 8 0] :=
  (vin_request_fills_queue obd_c Globals_init (request_frame 9 2) rfl (by decide)
    (by decide)).1

/-- C8: a second VIN request while one is pending overwrites the queue. From an all-zero
queue, a Mode-9 PID 0x02 request with VIN `v1`, then (no Flow-Control in between) one
with VIN `v2`, leaves the queue a single request with `v2` produces from the all-zero
queue, slots `[0x21, v2[3..9]]`, `[0x22, v2[10..16]]` and three zero slots; the next
Flow-Control transmits exactly these two Consecutive Frames. -/
theorem second_vin_request_overwrites {F : Type} (obd : obd_h F) (g : Globals F)
    (v2 : List Nat) (req1 req2 fc : CAN_frame_t)
    (hq : g.can_flow_queue = can_flow_queue_zero)
    (hv1 : is_vin g.vehicle_vin) (hv2 : is_vin v2)
    (hreq1 : is_request 9 0x02 req1) (hreq2 : is_request 9 0x02 req2)
    (hfc : is_flow_control fc) :
    (task_CAN obd { (task_CAN obd g req1).1 with vehicle_vin := v2 } req2).1.can_flow_queue =
        (task_CAN obd { g with vehicle_vin := v2 } req2).1.can_flow_queue
      ∧ (task_CAN obd { (task_CAN obd g req1).1 with vehicle_vin := v2 } req2).1.can_flow_queue =
        [0x21 :: (v2.drop 3).take 7, 0x22 :: (v2.drop 10).take 7,
          List.replicate 8 0, List.replicate 8 0, List.replicate 8 0]
      ∧ (task_CAN obd
          (task_CAN obd { (task_CAN obd g req1).1 with vehicle_vin := v2 } req2).1 fc).2 =
        [response_msg (0x21 :: (v2.drop 3).take 7), response_msg (0x22 :: (v2.drop 10).take 7)] := by
  have hl1 := vin_slice_length g.vehicle_vin hv1.1
  have hl2 := vin_slice_length v2 hv2.1
  have h1 : (task_CAN obd g req1).1.can_flow_queue =
      [0x21 :: (g.vehicle_vin.drop 3).take 7, 0x22 :: (g.vehicle_vin.drop 10).take 7,
        List.replicate 8 0, List.replicate 8 0, List.replicate 8 0] := by
    rw [task_CAN_mode9 obd g 2 req1 hreq1]
    exact respondToOBD9_vin_queue g _ _ _ _ _ hq (by simp) (by simp) hv1.1
  have h2 : (task_CAN obd { (task_CAN obd g req1).1 with vehicle_vin := v2 } req2).1.can_flow_queue =
      [0x21 :: (v2.drop 3).take 7, 0x22 :: (v2.drop 10).take 7,
        List.replicate 8 0, List.replicate 8 0, List.replicate 8 0] := by
    rw [task_CAN_mode9 obd _ 2 req2 hreq2]
    exact respondToOBD9_vin_queue _ _ _ _ _ _ h1 (by simp [hl1.1]) (by simp [hl1.2]) hv2.1
  have h3 : (task_CAN obd { g with vehicle_vin := v2 } req2).1.can_flow_queue =
      [0x21 :: (v2.drop 3).take 7, 0x22 :: (v2.drop 10).take 7,
        List.replicate 8 0, List.replicate 8 0, List.replicate 8 0] := by
    rw [task_CAN_mode9 obd _ 2 req2 hreq2]
    exact respondToOBD9_vin_queue _ _ _ _ _ _ hq (by simp) (by simp) hv2.1
  refine ⟨h2.trans h3.symm, h2, ?_⟩
  rw [task_CAN_flow_control obd _ fc hfc, h2]
  exact task_CAN_flow_two _ _ hl2.1 hl2.2

/-- Witness of C8: the initial VIN first, then "WVWZZZ1JZXW000001". -/
theorem second_vin_request_overwrites_witness :
    (task_CAN obd_c
        (task_CAN obd_c
          { (task_CAN obd_c Globals_init (request_frame 9 2)).1 with
            vehicle_vin := vehicle_vin_other } (request_frame 9 2)).1 flow_control_frame).2 =
      [response_msg (0x21 :: (vehicle_vin_other.drop 3).take 7),
       response_msg (0x22 :: (vehicle_vin_other.drop 10).take 7)] :=
  (second_vin_request_overwrites obd_c Globals_init vehicle_vin_other (request_frame 9 2)
    (request_frame 9 2) flow_control_frame rfl (by decide) (by decide) (by decide) (by decide)
    (by decide)).2.2

/-! ## Single-frame replies and ignored traffic -/

/-- C4: every reply `respondToOBD1` transmits for a PID `p` has identifier `0x7E8`,
standard format, no remote request, DLC 8 and payload
`[2 + data_len, 0x41, p, data bytes, 0x00 padding]`, where the data bytes are the ones the
`case` of `p` writes from byte 3 on; byte 0 is `2 + data_len` stored into a byte, which is
`2 + data_len` when `data_len` is the number of data bytes that case writes; and
`createOBDResponse(mode, pid)` yields `[2, (0x40 + mode) mod 256, pid mod 256, 0, 0, 0, 0, 0]`. -/
theorem single_frame_reply_layout {F : Type} (obd : obd_h F) (g : Globals F) (pid : Nat)
    (m : twai_message_t) (hpid : pid < 256) (hm : m ∈ respondToOBD1 obd g pid) :
    m.identifier = 0x7E8 ∧ m.extd = 0 ∧ m.rtr = 0 ∧ m.data_length_code = 8
      ∧ m.data = [((2 + respondToOBD1_data_len obd g pid) % 256).toNat, 0x40 + 1, pid]
          ++ respondToOBD1_data obd g pid
          ++ List.replicate (5 - respondToOBD1_written pid) 0
      ∧ (respondToOBD1_data obd g pid).length = respondToOBD1_written pid
      ∧ (respondToOBD1_data_len obd g pid = respondToOBD1_written pid →
          m.data.getD 0 0 = 2 + respondToOBD1_written pid)
      ∧ m.data.getD 1 0 = 0x41 ∧ m.data.getD 2 0 = pid
      ∧ (∀ k, k < respondToOBD1_written pid →
          m.data.getD (3 + k) 0 = (respondToOBD1_data obd g pid).getD k 0)
      ∧ (∀ i, 3 + respondToOBD1_written pid ≤ i → i < 8 → m.data.getD i 0 = 0)
      ∧ ∀ mode p, (createOBDResponse mode p).data =
          [2, (0x40 + mode) % 256, p % 256, 0, 0, 0, 0, 0] := by
  have hw := respondToOBD1_written_le pid
  have hd := respondToOBD1_data_length obd g pid
  rw [respondToOBD1_eq obd g pid hpid] at hm
  by_cases hz : respondToOBD1_data_len obd g pid > 0
  · rw [if_pos hz, List.mem_singleton] at hm
    subst hm
    refine ⟨rfl, rfl, rfl, rfl, rfl, hd, ?_, rfl, rfl, ?_, ?_, createOBDResponse_data⟩
    · intro hlen
      rw [hlen]
      simp only [response_msg, List.cons_append, List.getD_cons_zero]
      omega
    · intro k hk
      simp only [response_msg, List.getD_eq_getElem?_getD]
      rw [List.append_assoc, List.getElem?_append_right (by simp),
        List.getElem?_append_left (by simp [hd]; omega)]
      simp
    · intro i h3 h8
      simp only [response_msg, List.getD_eq_getElem?_getD]
      rw [List.getElem?_append_right (by simp [hd]; omega)]
      simp [hd]
  · rw [if_neg hz] at hm
    exact absurd hm (List.not_mem_nil m)

/-- Witness of C4: coolant 90 °C, PID `0x05`, reply `[3, 0x41, 0x05, 130, 0, 0, 0, 0]`. -/
theorem single_frame_reply_layout_witness :
    (response_msg [3, 0x41, 0x05, 130, 0, 0, 0, 0]) ∈ respondToOBD1 obd_c Globals_init 0x05
      ∧ (response_msg [3, 0x41, 0x05, 130, 0, 0, 0, 0]).data =
          [((2 + respondToOBD1_data_len obd_c Globals_init 0x05) % 256).toNat, 0x40 + 1, 0x05]
            ++ respondToOBD1_data obd_c Globals_init 0x05
            ++ List.replicate (5 - respondToOBD1_written 0x05) 0 :=
  ⟨by decide,
    (single_frame_reply_layout obd_c Globals_init 0x05
      (response_msg [3, 0x41, 0x05, 130, 0, 0, 0, 0]) (by decide) (by decide)).2.2.2.2.1⟩

/-- C5: a request for a Mode-1 PID outside `{0x00, 0x05, 0x0C, 0x0D, 0x11, 0x2F}` or for a
Mode-9 PID outside `{0x00, 0x02}` transmits nothing and leaves the globals, the pending
queue among them, as they were, for every vehicle state and queue content. -/
theorem unsupported_pid_silent {F : Type} (obd : obd_h F) (g : Globals F) (pid : Nat)
    (req : CAN_frame_t)
    (h : (is_request 1 pid req ∧ pid ∉ [0x00, 0x05, 0x0C, 0x0D, 0x11, 0x2F])
      ∨ (is_request 9 pid req ∧ pid ∉ [0x00, 0x02])) :
    task_CAN obd g req = (g, []) := by
  rcases h with ⟨hreq, hp⟩ | ⟨hreq, hp⟩
  · rw [task_CAN_mode1 obd g pid req hreq, respondToOBD1_unsupported obd g pid hp]
  · rw [task_CAN_mode9 obd g pid req hreq, respondToOBD9_unsupported g pid hp]

/-- Witness of C5: Mode 1 PID `0x99` while a VIN transmission is pending. -/
theorem unsupported_pid_silent_witness :
    task_CAN obd_c (task_CAN obd_c Globals_init (request_frame 9 2)).1 (request_frame 1 0x99) =
      ((task_CAN obd_c Globals_init (request_frame 9 2)).1, []) :=
  unsupported_pid_silent obd_c (task_CAN obd_c Globals_init (request_frame 9 2)).1 0x99
    (request_frame 1 0x99) (Or.inl (by decide))

/-- C6: a received frame whose identifier is neither `0x7DF` nor `0x7E0`, or is `0x7DF`
with a mode byte other than 1 and 9, or is `0x7E0` with byte 0 other than `0x30`, makes
one turn of the responder loop transmit nothing and leave the globals, the pending queue
among them, as they were. -/
theorem unhandled_frame_ignored {F : Type} (obd : obd_h F) (g : Globals F) (rx : CAN_frame_t)
    (h : (rx.MsgID ≠ 0x7DF ∧ rx.MsgID ≠ 0x7E0)
      ∨ (rx.MsgID = 0x7DF ∧ rx.data.getD 1 0 ≠ 1 ∧ rx.data.getD 1 0 ≠ 9)
      ∨ (rx.MsgID = 0x7E0 ∧ rx.data.getD 0 0 ≠ 0x30)) :
    task_CAN obd g rx = (g, []) := by
  unfold task_CAN
  rcases h with ⟨h1, h2⟩ | ⟨h1, h2, h3⟩ | ⟨h1, h2⟩
  · rw [if_neg h1, if_neg h2]
  · rw [if_pos h1, if_neg h2, if_neg h3]
  · rw [if_neg (by rw [h1]; decide), if_pos h1, if_neg h2]

/-- Witness of C6: a Mode-3 request while a VIN transmission is pending. -/
theorem unhandled_frame_ignored_witness :
    task_CAN obd_c (task_CAN obd_c Globals_init (request_frame 9 2)).1 (request_frame 3 0) =
      ((task_CAN obd_c Globals_init (request_frame 9 2)).1, []) :=
  unhandled_frame_ignored obd_c (task_CAN obd_c Globals_init (request_frame 9 2)).1
    (request_frame 3 0) (Or.inr (Or.inl (by decide)))

/-! ## Bus transport -/

/-- C7: for every frame with DLC at most 8, turning it into the wire message as
`CAN_write_frame` does and turning that message back as `twai_rx_task` does (into its
eight-byte frame buffer) gives a frame with the same identifier, DLC, format flag and
remote-request flag and the same data byte at every index below the DLC. -/
theorem wire_roundtrip (f can_frame : CAN_frame_t) (hdlc : f.DLC ≤ 8)
    (hbuf : can_frame.data.length = 8) :
    (twai_rx_task_convert can_frame (CAN_write_frame f)).MsgID = f.MsgID
      ∧ (twai_rx_task_convert can_frame (CAN_write_frame f)).DLC = f.DLC
      ∧ (twai_rx_task_convert can_frame (CAN_write_frame f)).FF = f.FF
      ∧ (twai_rx_task_convert can_frame (CAN_write_frame f)).RTR = f.RTR
      ∧ ∀ i, i < f.DLC →
          (twai_rx_task_convert can_frame (CAN_write_frame f)).data.getD i 0 = f.data.getD i 0 := by
  obtain ⟨id, dlc, ff, rtr, data⟩ := f
  obtain ⟨id2, dlc2, ff2, rtr2, buf⟩ := can_frame
  simp only at hdlc hbuf
  refine ⟨rfl, ?_, ?_, ?_, ?_⟩
  · simp only [twai_rx_task_convert, CAN_write_frame]; omega
  · cases ff <;> simp [twai_rx_task_convert, CAN_write_frame]
  · cases rtr <;> simp [twai_rx_task_convert, CAN_write_frame]
  · match buf, hbuf with
    | [b0, b1, b2, b3, b4, b5, b6, b7], _ =>
      intro i hi
      simp only at hi
      interval_cases dlc <;> interval_cases i <;>
        simp [twai_rx_task_convert, CAN_write_frame, twai_rx_task_copy, CAN_write_frame_copy]

/-- Witness of C7: an extended remote frame of DLC 3 received into a buffer that held
another frame; the bytes from index 3 on are the buffer's. -/
theorem wire_roundtrip_witness :
    twai_rx_task_convert (stale_frame 5) (CAN_write_frame roundtrip_frame) =
        { roundtrip_frame with data := [0x11, 0x22, 0x33, 0, 0, 0, 0, 0] }
      ∧ (twai_rx_task_convert (stale_frame 5) (CAN_write_frame roundtrip_frame)).DLC =
          roundtrip_frame.DLC :=
  ⟨by decide, (wire_roundtrip roundtrip_frame (stale_frame 5) (by decide) (by decide)).2.1⟩

/-- C9, as stated, fails: the same two-byte wire message `[2, 9]` at `0x7DF`, received into
a frame buffer whose byte 2 is `0x00` or `0x05`, gives two frames with the same
identifier, the same DLC 2 and the same bytes below the DLC; `task_CAN` answers the first
with the Mode-9 supported-PID reply and the second with nothing. -/
theorem bytes_beyond_dlc_are_read :
    twai_rx_task_convert (stale_frame 0) short_request_msg = { stale_frame 0 with DLC := 2 }
      ∧ twai_rx_task_convert (stale_frame 5) short_request_msg = { stale_frame 5 with DLC := 2 }
      ∧ (twai_rx_task_convert (stale_frame 0) short_request_msg).MsgID
        = (twai_rx_task_convert (stale_frame 5) short_request_msg).MsgID
      ∧ (twai_rx_task_convert (stale_frame 0) short_request_msg).DLC = 2
      ∧ (twai_rx_task_convert (stale_frame 5) short_request_msg).DLC = 2
      ∧ (twai_rx_task_convert (stale_frame 0) short_request_msg).data.take 2
        = (twai_rx_task_convert (stale_frame 5) short_request_msg).data.take 2
      ∧ (task_CAN obd_c Globals_init (twai_rx_task_convert (stale_frame 0) short_request_msg)).2
        = [response_msg [0x06, 0x49, 0x00, 0x40, 0x00, 0x00, 0x00, 0x00]]
      ∧ (task_CAN obd_c Globals_init (twai_rx_task_convert (stale_frame 5) short_request_msg)).2
        = [] := by
  decide

/-- C9, amended: two received frames with the same identifier, the same DLC and the same
data bytes at every index below the DLC make one turn of the responder loop transmit the
same frames and leave the same globals, provided the DLC covers the bytes the loop reads:
at least 3 for identifier `0x7DF`, at least 1 for identifier `0x7E0`. -/
theorem declared_bytes_decide {F : Type} (obd : obd_h F) (g : Globals F) (f1 f2 : CAN_frame_t)
    (hid : f1.MsgID = f2.MsgID) (hdlc : f1.DLC = f2.DLC)
    (hdata : ∀ i, i < f1.DLC → f1.data.getD i 0 = f2.data.getD i 0)
    (hquery : f1.MsgID = 0x7DF → 3 ≤ f1.DLC) (hecu : f1.MsgID = 0x7E0 → 1 ≤ f1.DLC) :
    task_CAN obd g f1 = task_CAN obd g f2 := by
  unfold task_CAN
  rw [← hid]
  by_cases h1 : f1.MsgID = 0x7df
  · have h3 := hquery h1
    rw [if_pos h1, if_pos h1, ← hdata 1 (by omega), ← hdata 2 (by omega)]
  · by_cases h2 : f1.MsgID = 0x7e0
    · have h3 := hecu h2
      rw [if_neg h1, if_pos h2, if_neg h1, if_pos h2, ← hdata 0 (by omega)]
    · rw [if_neg h1, if_neg h2, if_neg h1, if_neg h2]

/-- Witness of the amended C9: two Mode-9 PID 0x02 requests of DLC 3 that differ from
byte 3 on. -/
theorem declared_bytes_decide_witness :
    task_CAN obd_c Globals_init { request_frame 9 2 with DLC := 3 } =
      task_CAN obd_c Globals_init
        { request_frame 9 2 with DLC := 3, data := [2, 9, 2, 0xAA, 0xBB, 0xCC, 0xDD, 0xEE] } :=
  declared_bytes_decide obd_c Globals_init { request_frame 9 2 with DLC := 3 }
    { request_frame 9 2 with DLC := 3, data := [2, 9, 2, 0xAA, 0xBB, 0xCC, 0xDD, 0xEE] }
    rfl rfl (by decide) (by decide) (by decide)

/-- C10: in one iteration of the receive loop, for every alert bitmask read with `ESP_OK`
the alert handling calls `twai_initiate_recovery` exactly once if the bus-off bit is set
and not at all otherwise, and `twai_start` exactly once if the bus-recovered bit is set
and not at all otherwise; the calls are determined by these two bits alone, and when the
alert read fails no call is made. -/
theorem alert_handling_calls (TWAI_ALERT_BUS_OFF TWAI_ALERT_BUS_RECOVERED alerts : Nat)
    (received : Option twai_message_t) (can_frame : CAN_frame_t)
    (rx_queue : Option (List CAN_frame_t)) :
    (twai_rx_task TWAI_ALERT_BUS_OFF TWAI_ALERT_BUS_RECOVERED (some alerts) received can_frame
          rx_queue).calls =
        (if alerts &&& TWAI_ALERT_BUS_OFF ≠ 0 then [twai_call.twai_initiate_recovery] else [])
          ++ (if alerts &&& TWAI_ALERT_BUS_RECOVERED ≠ 0 then [twai_call.twai_start] else [])
      ∧ (twai_rx_task TWAI_ALERT_BUS_OFF TWAI_ALERT_BUS_RECOVERED (some alerts) received
          can_frame rx_queue).calls.count twai_call.twai_initiate_recovery =
        (if alerts &&& TWAI_ALERT_BUS_OFF ≠ 0 then 1 else 0)
      ∧ (twai_rx_task TWAI_ALERT_BUS_OFF TWAI_ALERT_BUS_RECOVERED (some alerts) received
          can_frame rx_queue).calls.count twai_call.twai_start =
        (if alerts &&& TWAI_ALERT_BUS_RECOVERED ≠ 0 then 1 else 0)
      ∧ (twai_rx_task TWAI_ALERT_BUS_OFF TWAI_ALERT_BUS_RECOVERED none received can_frame
          rx_queue).calls = [] := by
  rw [twai_rx_task_calls, twai_rx_task_calls]
  refine ⟨rfl, ?_, ?_, rfl⟩
  · unfold twai_rx_task_alerts
    by_cases h1 : alerts &&& TWAI_ALERT_BUS_OFF = 0 <;>
      by_cases h2 : alerts &&& TWAI_ALERT_BUS_RECOVERED = 0 <;> simp [h1, h2]
  · unfold twai_rx_task_alerts
    by_cases h1 : alerts &&& TWAI_ALERT_BUS_OFF = 0 <;>
      by_cases h2 : alerts &&& TWAI_ALERT_BUS_RECOVERED = 0 <;> simp [h1, h2]

/-! ## Start-up, supported-PID replies and diagnostics -/

/-- C11: with the results of `twai_driver_install` and `twai_start` as inputs, `CAN_init`
returns 0 if and only if both are `ESP_OK`; when install fails it returns -1 having called
neither `twai_start` nor `twai_driver_uninstall`; when install succeeds and start fails it
calls `twai_driver_uninstall` exactly once, after `twai_start` and as its last call, and
returns -1; and whenever it returns -1 no receive task is created. -/
theorem CAN_init_results (install start : Int) (rx_queue : Option (List CAN_frame_t)) :
    ((CAN_init install start rx_queue).1 = 0 ↔ install = ESP_OK ∧ start = ESP_OK)
      ∧ (install ≠ ESP_OK →
          (CAN_init install start rx_queue).1 = -1
            ∧ (CAN_init install start rx_queue).2 = [CAN_init_call.twai_driver_install])
      ∧ (install = ESP_OK → start ≠ ESP_OK →
          (CAN_init install start rx_queue).1 = -1
            ∧ (CAN_init install start rx_queue).2 =
                [CAN_init_call.twai_driver_install, CAN_init_call.twai_start,
                  CAN_init_call.twai_driver_uninstall]
            ∧ (CAN_init install start rx_queue).2.count CAN_init_call.twai_driver_uninstall = 1)
      ∧ ((CAN_init install start rx_queue).1 ≠ 0 →
          (CAN_init install start rx_queue).1 = -1
            ∧ CAN_init_call.xTaskCreate ∉ (CAN_init install start rx_queue).2)
      ∧ (CAN_init_call.twai_start ∈ (CAN_init install start rx_queue).2 ↔ install = ESP_OK)
      ∧ (CAN_init_call.twai_driver_uninstall ∈ (CAN_init install start rx_queue).2 ↔
          install = ESP_OK ∧ start ≠ ESP_OK) := by
  unfold CAN_init
  by_cases hi : install = ESP_OK
  · by_cases hs : start = ESP_OK
    · cases rx_queue <;> simp [hi, hs]
    · simp [hi, hs]
  · simp [hi]

/-- Witness of C11: install succeeds, start fails with `ESP_FAIL` (-1), a queue is set. -/
theorem CAN_init_results_witness :
    CAN_init 0 (-1) (some []) =
      (-1, [CAN_init_call.twai_driver_install, CAN_init_call.twai_start,
        CAN_init_call.twai_driver_uninstall]) :=
  Prod.ext ((CAN_init_results 0 (-1) (some [])).2.2.1 (by decide) (by decide)).1
    ((CAN_init_results 0 (-1) (some [])).2.2.1 (by decide) (by decide)).2.1

/-- C12: for every vehicle state a Mode-1 PID 0x00 request transmits exactly one frame,
at `0x7E8`, with payload `[0x06, 0x41, 0x00, 0x00, 0x18, 0x80, 0x00, 0x00]`, and a Mode-9
PID 0x00 request exactly one frame, at `0x7E8`, with payload
`[0x06, 0x49, 0x00, 0x40, 0x00, 0x00, 0x00, 0x00]`; both leave the globals, the pending
queue among them, as they were. -/
theorem supported_pid_replies {F : Type} (obd : obd_h F) (g : Globals F)
    (req1 req9 : CAN_frame_t) (h1 : is_request 1 0x00 req1) (h9 : is_request 9 0x00 req9) :
    task_CAN obd g req1 =
        (g, [response_msg [0x06, 0x41, 0x00, 0x00, 0x18, 0x80, 0x00, 0x00]])
      ∧ task_CAN obd g req9 =
        (g, [response_msg [0x06, 0x49, 0x00, 0x40, 0x00, 0x00, 0x00, 0x00]]) := by
  rw [task_CAN_mode1 obd g 0 req1 h1, task_CAN_mode9 obd g 0 req9 h9]
  exact ⟨rfl, rfl⟩

/-- Witness of C12 at the initial globals and with a VIN transmission pending. -/
theorem supported_pid_replies_witness :
    task_CAN obd_c Globals_init (request_frame 1 0) =
        (Globals_init, [response_msg [0x06, 0x41, 0x00, 0x00, 0x18, 0x80, 0x00, 0x00]])
      ∧ task_CAN obd_c (task_CAN obd_c Globals_init (request_frame 9 2)).1 (request_frame 9 0) =
        ((task_CAN obd_c Globals_init (request_frame 9 2)).1,
          [response_msg [0x06, 0x49, 0x00, 0x40, 0x00, 0x00, 0x00, 0x00]]) :=
  ⟨(supported_pid_replies obd_c Globals_init (request_frame 1 0) (request_frame 9 0)
      (by decide) (by decide)).1,
    (supported_pid_replies obd_c (task_CAN obd_c Globals_init (request_frame 9 2)).1
      (request_frame 1 0) (request_frame 9 0) (by decide) (by decide)).2⟩

/-- C13: with `obdRevConvert_0D` the spec's formula, for every vehicle speed `s` in
`0..255` a Mode-1 PID 0x0D request transmits exactly one frame, at `0x7E8`, with payload
`[0x03, 0x41, 0x0D, s, 0x00, 0x00, 0x00, 0x00]`, and payload byte 3 read back as a speed is
`s`; the start of `task_CAN` sets the speed to 85 and sends
`[0x03, 0x41, 0x0D, 85, 0x00, 0x00, 0x00, 0x00]`, the frame a request then gets. -/
theorem speed_reply {F : Type} (obd : obd_h F) (g : Globals F) (req : CAN_frame_t)
    (h0D : obd.obdRevConvert_0D = obdRevConvert_0D) (hs : g.vehicle_speed ≤ 255)
    (hreq : is_request 1 0x0D req) :
    task_CAN obd g req =
        (g, [response_msg [0x03, 0x41, 0x0D, g.vehicle_speed, 0x00, 0x00, 0x00, 0x00]])
      ∧ (∀ m ∈ (task_CAN obd g req).2, obdConvert_0D (m.data.getD 3 0) = g.vehicle_speed)
      ∧ (task_CAN_startup g).1.vehicle_speed = 85
      ∧ (task_CAN_startup g).2 =
          [response_msg [0x03, 0x41, 0x0D, 85, 0x00, 0x00, 0x00, 0x00]]
      ∧ (task_CAN obd (task_CAN_startup g).1 req).2 = (task_CAN_startup g).2 := by
  have key : ∀ g' : Globals F, g'.vehicle_speed ≤ 255 →
      respondToOBD1 obd g' 0x0D =
        [response_msg [0x03, 0x41, 0x0D, g'.vehicle_speed, 0x00, 0x00, 0x00, 0x00]] := by
    intro g' hs'
    have hmin : min g'.vehicle_speed 255 % 256 = g'.vehicle_speed := by
      rw [Nat.min_eq_left hs']
      exact Nat.mod_eq_of_lt (by omega)
    simp [respondToOBD1, respondToOBD1_switch, h0D, obdRevConvert_0D, hmin, sendOBDResponse,
      CAN_write_frame, CAN_write_frame_copy, createOBDResponse, CAN_frame_t.u8_set,
      response_msg]
  have hstart : (task_CAN_startup g).2 =
      [response_msg [0x03, 0x41, 0x0D, 85, 0x00, 0x00, 0x00, 0x00]] := rfl
  rw [task_CAN_mode1 obd g 0x0D req hreq, task_CAN_mode1 obd _ 0x0D req hreq, key g hs,
    key (task_CAN_startup g).1 (show (85 : Nat) ≤ 255 by decide), hstart]
  refine ⟨rfl, ?_, rfl, rfl, rfl⟩
  intro m hm
  rw [List.mem_singleton] at hm
  subst hm
  rfl

/-- Witness of C13: speed 85. -/
theorem speed_reply_witness :
    task_CAN obd_c { Globals_init with vehicle_speed := 85 } (request_frame 1 0x0D) =
      ({ Globals_init with vehicle_speed := 85 },
        [response_msg [0x03, 0x41, 0x0D, 85, 0x00, 0x00, 0x00, 0x00]]) :=
  (speed_reply obd_c { Globals_init with vehicle_speed := 85 } (request_frame 1 0x0D) rfl
    (by decide) (by decide)).1

/-- C14: for a status read with `ESP_OK`, `CAN_print_diagnostics` prints for each of the
two error counters exactly one of three messages: the critical one ("HIGH ... ERRORS!") if
and only if the counter is above 96, the warning ("Some ... errors detected") if and only
if it is in `(0, 96]`, the OK line if and only if it is 0; and it prints the bus-off
callout if and only if the state is `TWAI_STATE_BUS_OFF`. -/
theorem diagnostics_classes (status_info : twai_status_info_t) :
    (diagnostics_line.tx_high ∈ CAN_print_diagnostics (some status_info) ↔
        status_info.tx_error_counter > 96)
      ∧ (diagnostics_line.tx_some ∈ CAN_print_diagnostics (some status_info) ↔
        0 < status_info.tx_error_counter ∧ status_info.tx_error_counter ≤ 96)
      ∧ (diagnostics_line.tx_ok ∈ CAN_print_diagnostics (some status_info) ↔
        status_info.tx_error_counter = 0)
      ∧ (CAN_print_diagnostics (some status_info)).count diagnostics_line.tx_high
          + (CAN_print_diagnostics (some status_info)).count diagnostics_line.tx_some
          + (CAN_print_diagnostics (some status_info)).count diagnostics_line.tx_ok = 1
      ∧ (diagnostics_line.rx_high ∈ CAN_print_diagnostics (some status_info) ↔
        status_info.rx_error_counter > 96)
      ∧ (diagnostics_line.rx_some ∈ CAN_print_diagnostics (some status_info) ↔
        0 < status_info.rx_error_counter ∧ status_info.rx_error_counter ≤ 96)
      ∧ (diagnostics_line.rx_ok ∈ CAN_print_diagnostics (some status_info) ↔
        status_info.rx_error_counter = 0)
      ∧ (CAN_print_diagnostics (some status_info)).count diagnostics_line.rx_high
          + (CAN_print_diagnostics (some status_info)).count diagnostics_line.rx_some
          + (CAN_print_diagnostics (some status_info)).count diagnostics_line.rx_ok = 1
      ∧ (diagnostics_line.bus_off_callout ∈ CAN_print_diagnostics (some status_info) ↔
        status_info.state = twai_state_t.TWAI_STATE_BUS_OFF) := by
  obtain ⟨state, a1, a2, tx, rx, a3, a4, a5, a6, a7⟩ := status_info
  simp only [CAN_print_diagnostics, List.mem_append, List.count_append, List.mem_cons,
    List.mem_singleton, List.not_mem_nil, List.count_cons, List.count_nil, reduceCtorEq,
    false_or, or_false, beq_iff_eq, if_false, Nat.zero_add, Nat.add_zero]
  have htx : tx > 96 ∨ (0 < tx ∧ tx ≤ 96) ∨ tx = 0 := by omega
  have hrx : rx > 96 ∨ (0 < rx ∧ rx ≤ 96) ∨ rx = 0 := by omega
  rcases htx with h | ⟨h1, h2⟩ | h
  · have g0 : tx > 0 := by omega
    rcases hrx with h' | ⟨h1', h2'⟩ | h'
    · cases state <;> simp [h, h'] <;> omega
    · have n' : ¬ rx > 96 := by omega
      cases state <;> simp [h, n', h1', h2'] <;> omega
    · subst h'
      cases state <;> simp [h] <;> omega
  · have n : ¬ tx > 96 := by omega
    rcases hrx with h' | ⟨h1', h2'⟩ | h'
    · cases state <;> simp [n, h1, h2, h'] <;> omega
    · have n' : ¬ rx > 96 := by omega
      cases state <;> simp [n, h1, h2, n', h1', h2'] <;> omega
    · subst h'
      cases state <;> simp [n, h1, h2] <;> omega
  · subst h
    rcases hrx with h' | ⟨h1', h2'⟩ | h'
    · cases state <;> simp [h'] <;> omega
    · have n' : ¬ rx > 96 := by omega
      cases state <;> simp [n', h1', h2'] <;> omega
    · subst h'
      cases state <;> simp

/-- Witness of C14 at the threshold: 96 is a warning, 97 is critical. -/
theorem diagnostics_classes_witness :
    diagnostics_line.tx_some ∈
        CAN_print_diagnostics (some (status_sample twai_state_t.TWAI_STATE_RUNNING 96 0))
      ∧ diagnostics_line.rx_high ∈
        CAN_print_diagnostics (some (status_sample twai_state_t.TWAI_STATE_BUS_OFF 0 97)) :=
  ⟨(diagnostics_classes (status_sample twai_state_t.TWAI_STATE_RUNNING 96 0)).2.1.mpr
      (by decide),
    (diagnostics_classes (status_sample twai_state_t.TWAI_STATE_BUS_OFF 0 97)).2.2.2.2.1.mpr
      (by decide)⟩

/-! ## Consistency of the VIN message and of the supported-PID mask -/

theorem can_flow_queue_inv_cases (q : List (List Nat)) (h : can_flow_queue_inv q) :
    ∃ r0 r1, q = [r0, r1, List.replicate 8 0, List.replicate 8 0, List.replicate 8 0]
      ∧ r0.length = 8 ∧ r1.length = 8 := by
  obtain ⟨h5, h0, h1, hz⟩ := h
  match q, h5 with
  | [r0, r1, r2, r3, r4], _ =>
    simp only [List.drop_succ_cons, List.drop_zero] at hz
    refine ⟨r0, r1, ?_, h0, h1⟩
    rw [hz]
    rfl

theorem can_flow_queue_inv_zero : can_flow_queue_inv can_flow_queue_zero := by
  decide

/-- Every turn of `task_CAN` keeps the shape of the pending queue, so every queue the
responder can reach from the all-zero one has it. -/
theorem task_CAN_keeps_inv {F : Type} (obd : obd_h F) (g : Globals F) (rx : CAN_frame_t)
    (h : can_flow_queue_inv g.can_flow_queue) :
    can_flow_queue_inv (task_CAN obd g rx).1.can_flow_queue := by
  unfold task_CAN
  split_ifs
  · exact h
  · unfold respondToOBD9
    split_ifs
    · exact h
    · obtain ⟨r0, r1, hq, h0, h1⟩ := can_flow_queue_inv_cases _ h
      match r0, h0, r1, h1 with
      | [b0, b1, b2, b3, b4, b5, b6, b7], _, [c0, c1, c2, c3, c4, c5, c6, c7], _ =>
        simp [hq, can_flow_queue_set, can_flow_queue_inv]
    · exact h
  · exact h
  · exact can_flow_queue_inv_zero
  · exact h
  · exact h

/-- C15: for every 17-byte VIN, the First Frame of a Mode-9 PID 0x02 request and the
Consecutive Frames the following Flow-Control releases reassemble (First Frame bytes 2..7,
then bytes 1..7 of each Consecutive Frame, in order) to exactly 20 bytes, the length the
First Frame declares in its byte 1 (`0x14`), and these are `[0x49, 0x02, 0x01]` followed by
`VIN[0..16]`. -/
theorem vin_message_reassembles {F : Type} (obd : obd_h F) (g : Globals F)
    (req fc : CAN_frame_t) (hinv : can_flow_queue_inv g.can_flow_queue)
    (hvin : is_vin g.vehicle_vin) (hreq : is_request 9 0x02 req) (hfc : is_flow_control fc) :
    reassemble (task_CAN obd g req).2 (task_CAN obd (task_CAN obd g req).1 fc).2 =
        [0x49, 0x02, 0x01] ++ g.vehicle_vin
      ∧ (reassemble (task_CAN obd g req).2 (task_CAN obd (task_CAN obd g req).1 fc).2).length
          = 20
      ∧ (task_CAN obd g req).2.length = 1
      ∧ (task_CAN obd (task_CAN obd g req).1 fc).2.length = 2
      ∧ ∀ m ∈ (task_CAN obd g req).2,
          m.data.getD 1 0 = 0x14
            ∧ m.data.getD 1 0 =
              (reassemble (task_CAN obd g req).2
                (task_CAN obd (task_CAN obd g req).1 fc).2).length := by
  obtain ⟨r0, r1, hq, h0, h1⟩ := can_flow_queue_inv_cases _ hinv
  have hl := vin_slice_length g.vehicle_vin hvin.1
  have hsent : (task_CAN obd g req).2 =
      [response_msg [0x10, 0x14, 0x49, 0x02, 0x01, g.vehicle_vin.getD 0 0,
        g.vehicle_vin.getD 1 0, g.vehicle_vin.getD 2 0]] := by
    rw [task_CAN_mode9 obd g 2 req hreq, respondToOBD9_vin_sent]
  have hcf : (task_CAN obd (task_CAN obd g req).1 fc).2 =
      [response_msg (0x21 :: (g.vehicle_vin.drop 3).take 7),
       response_msg (0x22 :: (g.vehicle_vin.drop 10).take 7)] := by
    rw [task_CAN_flow_control obd _ fc hfc, task_CAN_mode9 obd g 2 req hreq,
      respondToOBD9_vin_queue g _ _ _ _ _ hq h0 h1 hvin.1]
    exact task_CAN_flow_two _ _ hl.1 hl.2
  rw [hsent, hcf]
  obtain ⟨a0, a1, a2, a3, a4, a5, a6, a7, a8, a9, a10, a11, a12, a13, a14, a15, a16, hv⟩ :=
    vin_cases g.vehicle_vin hvin.1
  rw [hv]
  refine ⟨rfl, rfl, rfl, rfl, ?_⟩
  intro m hm
  rw [List.mem_singleton] at hm
  subst hm
  exact ⟨rfl, rfl⟩

/-- Witness of C15 at the initial globals. -/
theorem vin_message_reassembles_witness :
    reassemble (task_CAN obd_c Globals_init (request_frame 9 2)).2
        (task_CAN obd_c (task_CAN obd_c Globals_init (request_frame 9 2)).1
          flow_control_frame).2 =
      [0x49, 0x02, 0x01] ++ Globals_init.vehicle_vin :=
  (vin_message_reassembles obd_c Globals_init (request_frame 9 2) flow_control_frame
    (by decide) (by decide) (by decide) (by decide)).1

/-- C16 fails at PID `0x05`: the Mode-1 PID 0x00 reply carries the mask `0x00188000`, whose
bit for `0x05` is clear, while `respondToOBD1` has a `case 0x05` and answers a request for
it (coolant 90 °C gives `[3, 0x41, 0x05, 130, 0, 0, 0, 0]`); for every other PID in
`0x01..0x20` the bit is set if and only if `respondToOBD1` has a case for it. -/
theorem supported_mask_omits_coolant :
    (respondToOBD1 obd_c Globals_init 0x00).map supported_mask = [0x00188000]
      ∧ supported_bit 0x00188000 0x05 = false
      ∧ respondToOBD1_has_case 0x05 = true
      ∧ respondToOBD1 obd_c Globals_init 0x05 = [response_msg [3, 0x41, 0x05, 130, 0, 0, 0, 0]]
      ∧ ∀ p, 0x01 ≤ p → p ≤ 0x20 → p ≠ 0x05 →
          supported_bit 0x00188000 p = respondToOBD1_has_case p := by
  refine ⟨by decide, by decide, by decide, by decide, ?_⟩
  intro p h1 h2 h5
  interval_cases p <;> first | decide | exact absurd rfl h5

end OBD2
